import Mathlib

/-!
Verification of the environment-lifecycle / process-supervisor core of
`launch_apps.py` (Python Apps Launcher).

The Python source is shallowly embedded: filesystem state and subprocess
outcomes are supplied by explicit "world" records (oracles), every operation
is a total Lean function from its world and inputs to its result together
with a trace of observable events (log lines, status assignments, subprocess
invocations, directory moves), and the control flow of each Lean definition
mirrors the corresponding Python function line by line.
-/

/-- A filesystem path, as its list of segments (`pathlib.Path` parts below the
root).  `p ++ [s]` models `p / s`. -/
abbrev FsPath := List String

/-- Model of `str(path)` rendering (POSIX separators). -/
def showPath (p : FsPath) : String := String.intercalate "/" p

/-- Last path segment, `Path.name`. -/
def pathName (p : FsPath) : String := p.getLastD ""

/-- Model of `Path.parent`: drop the last segment. -/
def pathParent (p : FsPath) : FsPath := p.dropLast

/-- One entry of a directory listing (`Path.iterdir()` result). -/
structure FsEntry where
  name : String
  isDir : Bool
  deriving DecidableEq, Repr

/-- Observable events emitted by the embedded operations, in order. -/
inductive Ev where
  /-- a line handed to the log sink (`log.put`) -/
  | log (msg : String)
  /-- Model of `self.status.set(s)` -/
  | setStatus (s : String)
  /-- the `python -m venv <dir>` creation subprocess -/
  | spawnVenvCreate (dir : FsPath)
  /-- a `<venv python> -m pip <args>` subprocess -/
  | spawnPip (args : List String)
  /-- the `<python> -V` probe subprocess attempted by `is_valid_venv_python` -/
  | spawnProbe
  /-- a call to `is_valid_venv_python` (may internally spawn a probe,
      never a creation subprocess) -/
  | validCheck (p : FsPath)
  /-- Model of `shutil.move(src, dest)` -/
  | move (src dest : FsPath)
  /-- Model of `marker.write_text("ok")` -/
  | writeMarker
  /-- a call to `self.ensure_venv(...)` -/
  | ensureCall
  /-- a call to `self.install_requirements(...)` -/
  | installCall
  /-- Model of `subprocess.Popen` of the project's entry script -/
  | spawnChild
  /-- Model of `self.proc.terminate()` -/
  | terminate
  /-- Model of `self.proc.wait(timeout=t)` -/
  | waitProc (t : Nat)
  /-- Model of `self.proc.kill()` -/
  | kill
  deriving DecidableEq, Repr

/-! ### Python string primitives used by the source -/

/-- Model of `line.rstrip("\n")`: remove every trailing newline character. -/
def rstripNewline (s : String) : String :=
  ⟨(s.data.reverse.dropWhile (fun c => c = '\n')).reverse⟩

/-- Helper for `pySplitlines`: split a character list at line terminators
(`\n`, `\r`, `\r\n`), the accumulator holding the current line reversed. -/
def splitlinesAux : List Char → List Char → List String
  | [], acc => if acc.isEmpty then [] else [⟨acc.reverse⟩]
  | '\r' :: '\n' :: rest, acc => (⟨acc.reverse⟩ : String) :: splitlinesAux rest []
  | '\r' :: rest, acc => (⟨acc.reverse⟩ : String) :: splitlinesAux rest []
  | '\n' :: rest, acc => (⟨acc.reverse⟩ : String) :: splitlinesAux rest []
  | c :: rest, acc => splitlinesAux rest (c :: acc)

/-- Python `str.splitlines()` (no trailing empty line). -/
def pySplitlines (s : String) : List String := splitlinesAux s.data []

/-- Model of `s.split("=", 1)[1]`: everything after the first `=` (meaningful only when
`s` contains `=`; the caller models Python's `IndexError` otherwise). -/
def afterFirstEq (s : String) : String :=
  ⟨(s.data.dropWhile (fun c => c ≠ '=')).tail⟩

/-- Python `s.strip('"')`: remove all leading and trailing double quotes. -/
def stripQuotes (s : String) : String :=
  ⟨((s.data.dropWhile (fun c => c = '"')).reverse.dropWhile (fun c => c = '"')).reverse⟩

/-- Python `s.strip()`: remove leading and trailing whitespace. -/
def pyStrip (s : String) : String :=
  ⟨((s.data.dropWhile Char.isWhitespace).reverse.dropWhile Char.isWhitespace).reverse⟩

/-- Python `s.lower()`. -/
def pyToLower (s : String) : String := ⟨s.data.map Char.toLower⟩

/-- Does the character list `pre` occur as an initial segment of `cs`? -/
def startsWithCh : List Char → List Char → Bool
  | [], _ => true
  | _ :: _, [] => false
  | p :: ps, c :: cs => p = c && startsWithCh ps cs

/-- Python `s.startswith(pre)`. -/
def pyStartsWith (s pre : String) : Bool := startsWithCh pre.data s.data

/-- Python `c in s` for a single character. -/
def containsChar (s : String) (c : Char) : Bool := s.data.contains c

/-- Python truthiness of a string: nonempty. -/
def pyTruthy (s : String) : Bool := !s.data.isEmpty

/-! ### `stream_proc` -/

/-- Outcome of `subprocess.Popen` plus the streaming loop inside
`stream_proc`, as decided by the operating system. -/
inductive ProcOutcome where
  /-- A `FileNotFoundError` raised at spawn (executable missing) -/
  | notFound (err : String)
  /-- any other exception raised at spawn, before any output line -/
  | spawnFail (err : String)
  /-- an exception raised during streaming or `wait`, after the given
      output lines were already produced -/
  | streamFail (produced : List String) (err : String)
  /-- normal run: all output lines, then the child's exit code -/
  | ok (lines : List String) (code : Int)
  deriving DecidableEq, Repr

/-- A line delivered to the sink, tagged with its provenance: `out` for a
child output line, `diag` for a diagnostic produced by an exception
handler inside `stream_proc`. -/
inductive SinkLine where
  | out (s : String)
  | diag (s : String)
  deriving DecidableEq, Repr

/-- Number of diagnostic lines among the delivered sink lines. -/
def diagCount (ls : List SinkLine) : Nat :=
  ls.countP (fun l => match l with | .diag _ => true | .out _ => false)

/-- Model of `stream_proc(cmd, cwd, log_put, env)`: stream each output line
newline-stripped to the sink, return the exit code; `FileNotFoundError`
becomes one diagnostic and 127, any other exception one diagnostic and 1. -/
def stream_proc (cmd : List String) (o : ProcOutcome) : List SinkLine × Int :=
  match o with
  | .ok lines code =>
      (lines.map (fun l => .out (rstripNewline l)), code)
  | .notFound err =>
      ([.diag ("Command not found: " ++ cmd.headD "" ++ " (" ++ err ++ ")")], 127)
  | .spawnFail err =>
      ([.diag ("Error running command: " ++ err)], 1)
  | .streamFail produced err =>
      (produced.map (fun l => .out (rstripNewline l))
        ++ [.diag ("Error running command: " ++ err)], 1)

/-! ### `read_pyvenv_home` and `is_valid_venv_python` -/

/-- Module constants of the source. -/
def VENV_NAMES : List String := [".venv", "venv", "env"]

/-- Value of `os.name == "nt"`; the embedding models the POSIX branch. -/
def IS_WINDOWS : Bool := false

/-- The platform-specific interpreter sub-path beneath an environment
directory: `Scripts/python.exe` on Windows, `bin/python` otherwise. -/
def pyRel : List String := if IS_WINDOWS then ["Scripts", "python.exe"] else ["bin", "python"]

/-- World of `read_pyvenv_home`: the `pyvenv.cfg` file of one environment
directory, as seen by `cfg.exists()` and `cfg.read_text(...)` (a read that
raises is `Except.error ()`). -/
structure CfgWorld where
  cfgExists : Bool
  readContent : Except Unit String

/-- The first configuration line whose lowercasing starts with `home`
(the line the `for` loop of `read_pyvenv_home` returns from). -/
def firstHomeLine (content : String) : Option String :=
  (pySplitlines content).find? (fun l => pyStartsWith (pyToLower l) "home")

/-- Model of `read_pyvenv_home(venv_dir)`: the `home` value of `pyvenv.cfg`, else `""`.
A read error, or a `home` line with no `=` (Python `IndexError` on
`line.split("=", 1)[1]`), is swallowed by the `except` and yields `""`. -/
def read_pyvenv_home (w : CfgWorld) : String :=
  if w.cfgExists then
    match w.readContent with
    | .error _ => ""
    | .ok content =>
      match firstHomeLine content with
      | none => ""
      | some line =>
        if containsChar line '=' then stripQuotes (pyStrip (afterFirstEq line)) else ""
  else ""

/-- World of `is_valid_venv_python` for one interpreter path: existence of the
interpreter file, the `pyvenv.cfg` of its grandparent directory, existence of
paths named by the declared home, and the result of
`subprocess.call([python_exe, "-V"])` (`Except.error ()` if it raises). -/
structure ValidWorld where
  exeExists : Bool
  cfg : CfgWorld
  homeEx : String → Bool
  callRc : Except Unit Int

/-- Model of `is_valid_venv_python(python_exe)`: false if the file is missing; false
without spawning if `pyvenv.cfg` declares a `home` that no longer exists;
otherwise probe with `python -V` and succeed iff it exits 0 (an exception in
the probe yields false).  Also returns the subprocess events performed. -/
def is_valid_venv_python (w : ValidWorld) : Bool × List Ev :=
  if !w.exeExists then (false, [])
  else if pyTruthy (read_pyvenv_home w.cfg) && !w.homeEx (read_pyvenv_home w.cfg) then
    (false, [])
  else
    match w.callRc with
    | .ok rc => (decide (rc = 0), [.spawnProbe])
    | .error _ => (false, [.spawnProbe])

/-! ### `Project` state, environment probing, backup, `ensure_venv` -/

/-- The fields of a `Project` instance that the core operations read and
write (identity fields plus mutable environment bookkeeping). -/
structure ProjSt where
  path : FsPath
  entrypoint : String
  args : String
  requirements : String
  venv_python : Option FsPath
  install_on_run : Bool
  created_venv : Bool

/-- Model of `Project._prefer_root_venv`: the first conventional environment directory
name directly under the project directory whose interpreter file exists. -/
def Project._prefer_root_venv (ex : FsPath → Bool) (path : FsPath) : Option FsPath :=
  (VENV_NAMES.map (fun v => path ++ [v] ++ pyRel)).find? ex

/-- Model of `Project._find_shallow_venv`: scan one level into non-hidden
subdirectories for the same conventional names. -/
def Project._find_shallow_venv (ex : FsPath → Bool) (entries : List FsEntry)
    (path : FsPath) : Option FsPath :=
  (entries.filter (fun e => e.isDir && !pyStartsWith e.name ".")).findSome?
    (fun e => (VENV_NAMES.map (fun v => path ++ [e.name, v] ++ pyRel)).find? ex)

/-- Model of `Project._detect_venv_python`: root environment preferred, shallow
fallback, else none (the source's `""`). -/
def Project._detect_venv_python (ex : FsPath → Bool) (entries : List FsEntry)
    (path : FsPath) : Option FsPath :=
  match Project._prefer_root_venv ex path with
  | some vp => some vp
  | none => Project._find_shallow_venv ex entries path

/-- The `idx`-th backup destination tried by `_backup_dir`:
`<name>.broken_backup` for `idx = 1`, `<name>.broken_backup_<idx>` after. -/
def backupCandidate (d : FsPath) (idx : Nat) : FsPath :=
  pathParent d
    ++ [if idx = 1 then pathName d ++ ".broken_backup"
        else pathName d ++ ".broken_backup_" ++ toString idx]

/-- The `while dest.exists()` search loop of `_backup_dir`: starting at
candidate `idx`, return the first candidate that does not exist.  The source
loops unboundedly; the embedding carries explicit fuel, adequate whenever a
free candidate exists within it. -/
def findDest (ex : FsPath → Bool) (d : FsPath) : Nat → Nat → FsPath
  | 0, idx => backupCandidate d idx
  | fuel + 1, idx =>
    if ex (backupCandidate d idx) then findDest ex d fuel (idx + 1)
    else backupCandidate d idx

/-- Model of `Project._backup_dir(d, log)`: move `d` to the first free
`<name>.broken_backup[_n]` sibling; a failure of the move is logged and
swallowed (the caller proceeds).  Returns the events, whether the move
happened, and the filesystem existence oracle after the move. -/
def Project._backup_dir (ex : FsPath → Bool) (moveOk : Bool) (searchBound : Nat)
    (d : FsPath) : List Ev × Bool × (FsPath → Bool) :=
  let dest := findDest ex d searchBound 1
  if moveOk then
    ([.move d dest, .log ("Backed up broken venv to: " ++ showPath dest)], true,
      fun p => if d.isPrefixOf p then false else if p = dest then true else ex p)
  else
    ([.log ("Failed to backup broken venv (" ++ showPath d ++ ")")], false, ex)

/-- World of `ensure_venv`: filesystem existence, the result of
`is_valid_venv_python` at each interpreter path, the `home` string
`read_pyvenv_home` would report for each environment directory (used only in
a log message), whether `shutil.move` succeeds, the fuel for the backup
destination search, and the exit code of the `python -m venv` subprocess. -/
structure EnsureWorld where
  ex : FsPath → Bool
  valid : FsPath → Bool
  homeOf : FsPath → String
  moveOk : Bool
  searchBound : Nat
  createRc : Int

/-- Model of `Project.ensure_venv(log, force_rebuild)`: optionally force-backup the
root `.venv`; adopt `.venv`'s interpreter if it exists and validates; else
back up a previously detected broken environment; finally create a fresh
`.venv` via subprocess and adopt it on exit code 0. -/
def Project.ensure_venv (w : EnsureWorld) (st : ProjSt) (force : Bool) :
    Bool × ProjSt × List Ev :=
  let venvDir := st.path ++ [".venv"]
  let venvPy := venvDir ++ pyRel
  let forceRes : List Ev × (FsPath → Bool) :=
    if force && w.ex venvDir then
      let b := Project._backup_dir w.ex w.moveOk w.searchBound venvDir
      (Ev.log "Force rebuilding venv..." :: b.1, b.2.2)
    else ([], w.ex)
  let evs0 := forceRes.1
  let ex0 := forceRes.2
  let checkEv : List Ev := if ex0 venvPy then [.validCheck venvPy] else []
  if ex0 venvPy && w.valid venvPy then
    (true, { st with venv_python := some venvPy },
      evs0 ++ checkEv ++ [.log ("Using existing venv: " ++ showPath venvPy)])
  else
    let step3 : List Ev × (FsPath → Bool) × ProjSt :=
      match st.venv_python with
      | some cand =>
        if !w.valid cand then
          let venvRoot := pathParent (pathParent cand)
          let b := Project._backup_dir ex0 w.moveOk w.searchBound venvRoot
          ([.validCheck cand,
            .log ("Detected existing venv appears broken: " ++ showPath cand
              ++ " (home=\x27" ++ w.homeOf venvRoot ++ "\x27).")] ++ b.1,
            b.2.2, { st with venv_python := none })
        else ([.validCheck cand], ex0, st)
      | none => ([], ex0, st)
    let st1 := step3.2.2
    let evs2 := evs0 ++ checkEv ++ step3.1
      ++ [.log "Creating fresh .venv in project root...", .spawnVenvCreate venvDir]
    if w.createRc ≠ 0 then
      (false, st1,
        evs2 ++ [.log ("Failed to create venv (exit " ++ toString w.createRc ++ ").")])
    else
      (true, { st1 with venv_python := some venvPy, created_venv := true },
        evs2 ++ [.log ("Venv created: " ++ showPath venvPy)])

/-- Is this event an environment-creation subprocess invocation? -/
def isVenvCreate : Ev → Bool
  | .spawnVenvCreate _ => true
  | _ => false

/-- Concrete filesystem for the C3 counterexample: project `proj` whose root
environment directory is named `venv` (a conventional alias, but not
`.venv`); its interpreter exists, nothing else does. -/
def c3ex : FsPath → Bool := fun p =>
  p == ["proj", "venv", "bin", "python"] || p == ["proj", "venv"] || p == ["proj"]

/-- C3 counterexample world: the `venv` interpreter validates, moves succeed,
creation exits 0. -/
def c3w : EnsureWorld :=
  { ex := c3ex, valid := fun p => p == ["proj", "venv", "bin", "python"],
    homeOf := fun _ => "", moveOk := true, searchBound := 8, createRc := 0 }

/-- C3 counterexample project, with `venv_python` as discovery detects it. -/
def c3st : ProjSt :=
  { path := ["proj"], entrypoint := "app.py", args := "", requirements := "",
    venv_python := Project._detect_venv_python c3ex [⟨"venv", true⟩] ["proj"],
    install_on_run := true, created_venv := false }


/-! ### `_pip` and `install_requirements` -/

/-- Model of `Project._pip(args, log)`: if the stored interpreter path is empty or the
file is missing, log one line and return 1 without spawning anything;
otherwise log the command line and run `<venv python> -m pip <args>`, whose
exit code the world supplies. -/
def Project._pip (ex : FsPath → Bool) (venv_python : Option FsPath)
    (args : List String) (rc : Int) : Int × List Ev :=
  match venv_python with
  | none => (1, [.log "Internal error: venv python missing"])
  | some p =>
    if !ex p then (1, [.log "Internal error: venv python missing"])
    else
      (rc, [.log ("$ " ++ String.intercalate " " ([showPath p, "-m", "pip"] ++ args)),
            .spawnPip args])

/-- World of `install_requirements`: manifest and marker existence, the
validation oracle, the outcome of a delegated `ensure_venv` (success flag and
the interpreter path it leaves in `self.venv_python`), the `_pip` guard's
file-existence oracle, and the three possible pip exit codes. -/
structure InstallWorld where
  ex : FsPath → Bool
  reqExists : Bool
  markerExists : Bool
  valid : FsPath → Bool
  ensureOk : Bool
  ensureVp : Option FsPath
  rc1 : Int
  upRc : Int
  rc2 : Int

/-- Model of `Project.install_requirements(log)`: no-op success without a manifest or
marker-skip; ensure the environment if the stored path is empty or invalid;
run `pip install -r`; on failure upgrade pip/setuptools/wheel, aborting if
the upgrade fails, else retry the install exactly once. -/
def Project.install_requirements (w : InstallWorld) (st : ProjSt) : Bool × List Ev :=
  if !pyTruthy st.requirements then (true, [])
  else if !w.reqExists then (true, [])
  else if w.markerExists && !st.install_on_run then
    (true, [.log "Skipping requirements (already installed)."])
  else
    let needEnsure : Bool :=
      match st.venv_python with
      | none => true
      | some p => !w.valid p
    let pre : Bool × Option FsPath × List Ev :=
      if needEnsure then (w.ensureOk, w.ensureVp, [.ensureCall])
      else (true, st.venv_python, [])
    if !pre.1 then (false, pre.2.2)
    else
      let vp := pre.2.1
      let reqStr := showPath (st.path ++ [st.requirements])
      let p1 := Project._pip w.ex vp ["install", "-r", reqStr] w.rc1
      let evs1 := pre.2.2
        ++ [.log ("Installing requirements from " ++ st.requirements ++ " ...")] ++ p1.2
      if p1.1 = 0 then (true, evs1 ++ [.writeMarker, .log "Requirements installed."])
      else
        let evs2 := evs1 ++ [.log ("pip install failed (exit " ++ toString p1.1
          ++ "). Retrying after upgrading pip/setuptools/wheel...")]
        let pu := Project._pip w.ex vp ["install", "--upgrade", "pip", "setuptools", "wheel"] w.upRc
        let evs3 := evs2 ++ pu.2
        if pu.1 ≠ 0 then
          (false, evs3 ++ [.log ("Upgrade step failed (exit " ++ toString pu.1 ++ "). Giving up.")])
        else
          let p2 := Project._pip w.ex vp ["install", "-r", reqStr] w.rc2
          let evs4 := evs3 ++ p2.2
          if p2.1 = 0 then (true, evs4 ++ [.writeMarker, .log "Requirements installed on retry."])
          else (false, evs4 ++ [.log ("Second attempt failed (exit " ++ toString p2.1
            ++ "). See log above for details.")])

/-- Is this event any pip subprocess invocation? -/
def isPipSpawn : Ev → Bool
  | .spawnPip _ => true
  | _ => false

/-- Is this event a package-install invocation (`pip install -r ...`)? -/
def isInstallSpawn : Ev → Bool
  | .spawnPip args => decide (args.take 2 = ["install", "-r"])
  | _ => false

/-- Is this event the pip self-upgrade invocation? -/
def isUpgradeSpawn : Ev → Bool
  | .spawnPip args => decide (args = ["install", "--upgrade", "pip", "setuptools", "wheel"])
  | _ => false


/-! ### `Project.run`, `Project.stop`, `LauncherApp._scan` -/

/-- Model of `Path(s).name` for a string path: the last `/`-separated component. -/
def pathBaseName (s : String) : String := (s.splitOn "/").getLastD ""

/-- World of `Project.run`: the result of the delegated `ensure_venv` (its
success flag and the `self.venv_python` it leaves behind), file existence,
the result of the delegated `install_requirements`, the orchestrator's own
interpreter (`sys.executable`), and the `Popen` outcome for the entry script
(`Except.error` when the spawn raises, `Except.ok pid` otherwise). -/
structure RunWorld where
  ensureOk : Bool
  ensureVp : Option FsPath
  ex : FsPath → Bool
  installOk : Bool
  sysExecutable : String
  spawnRes : Except String Nat

/-- The interpreter `Project.run` launches with: `self.venv_python` if set
and existing on disk, else `sys.executable`. -/
def pythonExecOf (w : RunWorld) : String :=
  match w.ensureVp with
  | some p => if w.ex p then showPath p else w.sysExecutable
  | none => w.sysExecutable

/-- Model of `Project.run(log)`: fail fast without an entrypoint; ensure the
environment; resolve the interpreter; check the entry file; install
requirements; launch the entry script detached, recording the handle and a
`Running (PID ...)` status; a spawn failure becomes status `Launch failed`. -/
def Project.run (w : RunWorld) (st : ProjSt) : Option Nat × List Ev :=
  if !pyTruthy st.entrypoint then
    (none, [.log "No entrypoint detected. Right-click → Edit Entrypoint/Args.",
            .setStatus "Need entrypoint"])
  else if !w.ensureOk then
    (none, [.ensureCall, .setStatus "Venv error"])
  else if !w.ex (st.path ++ [st.entrypoint]) then
    (none, [.ensureCall,
            .log ("Entrypoint \x27" ++ st.entrypoint ++ "\x27 not found."),
            .setStatus "Missing entrypoint"])
  else if !w.installOk then
    (none, [.ensureCall, .installCall, .setStatus "Install failed"])
  else
    match w.spawnRes with
    | .ok pid =>
      (some pid, [.ensureCall, .installCall, .spawnChild,
        .setStatus ("Running (PID " ++ toString pid ++ ")"),
        .log ("Launched with " ++ pathBaseName (pythonExecOf w) ++ " " ++ st.entrypoint)])
    | .error e =>
      (none, [.ensureCall, .installCall, .spawnChild,
        .setStatus "Launch failed", .log ("Launch failed: " ++ e)])

/-- Is this event a status assignment? -/
def isSetStatus : Ev → Bool
  | .setStatus _ => true
  | _ => false

/-- Outcome of the graceful-termination attempt inside `Project.stop`
(`self.proc.terminate()` then `self.proc.wait(timeout=5)`): normal exit, an
exception from `terminate`, or an exception from `wait` (including the
timeout expiring). -/
inductive TermOutcome where
  | ok
  | raisedAtTerminate (err : String)
  | raisedAtWait (err : String)
  deriving DecidableEq, Repr

/-- World of `Project.stop`: whether `self.proc` is set, whether
`self.proc.poll()` is `None` (still running), the graceful-termination
outcome, and the `kill()` outcome. -/
structure StopWorld where
  hasProc : Bool
  running : Bool
  term : TermOutcome
  killRes : Except String Unit

/-- The `except` handler of `Project.stop`: force-kill; if the kill itself
raises, only log the failure (no status change, nothing propagates). -/
def stopKillPart : Except String Unit → List Ev
  | .ok _ => [.kill, .setStatus "Killed", .log "Killed."]
  | .error e => [.kill, .log ("Failed to stop: " ++ e)]

/-- Model of `Project.stop(log)`: status `Idle` with no subprocess operation when no
live handle; otherwise terminate, wait up to 5 seconds and set `Stopped`; on
any exception (timeout included) kill and set `Killed`; all errors logged,
never raised. -/
def Project.stop (w : StopWorld) : List Ev :=
  if w.hasProc && w.running then
    match w.term with
    | .ok => [.terminate, .waitProc 5, .setStatus "Stopped", .log "Stopped."]
    | .raisedAtTerminate _ => .terminate :: stopKillPart w.killRes
    | .raisedAtWait _ => .terminate :: .waitProc 5 :: stopKillPart w.killRes
  else [.setStatus "Idle"]

/-- Model of `LauncherApp._scan`: one `Project` per immediate subdirectory of the root
(the source keeps every `p.is_dir()` entry of `root.iterdir()`, hidden or
not), sorted as `sorted()` orders sibling paths, i.e. by name.  The result
lists the project names. -/
def scanProjects (entries : List FsEntry) : List String :=
  List.insertionSort (fun a b => a ≤ b)
    ((entries.filter (fun e => e.isDir)).map (fun e => e.name))

/-- The C8 claim's reading of the scan (the spec's words): only *non-hidden*
subdirectories produce projects.  Stated for comparison with `scanProjects`,
which embeds the source. -/
def scanProjectsSpec (entries : List FsEntry) : List String :=
  List.insertionSort (fun a b => a ≤ b)
    ((entries.filter (fun e => e.isDir && !pyStartsWith e.name ".")).map (fun e => e.name))

/-! ### Theorems -/

theorem pyTruthy_iff (s : String) : pyTruthy s = true ↔ s ≠ "" := by
  cases s with
  | mk data =>
    cases data with
    | nil => simp [pyTruthy]
    | cons c cs =>
      simp only [pyTruthy, List.isEmpty_cons, Bool.not_false, ne_eq, true_iff]
      intro h
      exact absurd (congrArg String.data h) (by simp)

/-- C1: `stream_proc` never propagates an exception (it is a total function
of the spawn outcome): executable-not-found yields exit code 127 with exactly
one diagnostic line; any other spawn or I/O failure yields exit code 1 with
exactly one diagnostic line (after any output lines already produced);
otherwise every output line is delivered newline-stripped, in order, and the
child's exit code is returned. -/
theorem C1_stream_proc_total_contract :
    ∀ (cmd : List String) (err : String) (lines produced : List String) (code : Int),
      stream_proc cmd (.ok lines code)
        = (lines.map (fun l => .out (rstripNewline l)), code)
      ∧ (stream_proc cmd (.notFound err)).2 = 127
      ∧ diagCount (stream_proc cmd (.notFound err)).1 = 1
      ∧ (stream_proc cmd (.spawnFail err)).2 = 1
      ∧ diagCount (stream_proc cmd (.spawnFail err)).1 = 1
      ∧ (stream_proc cmd (.streamFail produced err)).2 = 1
      ∧ diagCount (stream_proc cmd (.streamFail produced err)).1 = 1
      ∧ (stream_proc cmd (.streamFail produced err)).1
          = produced.map (fun l => .out (rstripNewline l))
            ++ [.diag ("Error running command: " ++ err)] := by
  intro cmd err lines produced code
  refine ⟨rfl, rfl, rfl, rfl, rfl, rfl, ?_, rfl⟩
  simp [stream_proc, diagCount, List.countP_append, List.countP_map]

/-- C2: `is_valid_venv_python` returns false if the interpreter path does not
exist; returns false with no subprocess spawned whenever the environment's
configuration declares a `home` whose path is missing on disk (even when the
interpreter file itself exists); otherwise it spawns exactly the `-V` probe
and returns true iff that command exits 0. -/
theorem C2_is_valid_venv_python_contract :
    ∀ w : ValidWorld,
      (w.exeExists = false → is_valid_venv_python w = (false, []))
      ∧ (read_pyvenv_home w.cfg ≠ "" → w.homeEx (read_pyvenv_home w.cfg) = false →
          is_valid_venv_python w = (false, []))
      ∧ (w.exeExists = true →
          (read_pyvenv_home w.cfg = "" ∨ w.homeEx (read_pyvenv_home w.cfg) = true) →
          (is_valid_venv_python w).2 = [.spawnProbe]
          ∧ ((is_valid_venv_python w).1 = true ↔ w.callRc = .ok 0)) := by
  intro w
  refine ⟨fun h => ?_, fun h1 h2 => ?_, fun h1 h2 => ?_⟩
  · simp [is_valid_venv_python, h]
  · by_cases hex : w.exeExists
    · have ht : pyTruthy (read_pyvenv_home w.cfg) = true := (pyTruthy_iff _).mpr h1
      simp [is_valid_venv_python, hex, ht, h2]
    · simp [is_valid_venv_python, hex]
  · have hcond : (pyTruthy (read_pyvenv_home w.cfg)
        && !w.homeEx (read_pyvenv_home w.cfg)) = false := by
      rcases h2 with h2 | h2
      · have : pyTruthy (read_pyvenv_home w.cfg) = false := by
          rcases h : pyTruthy (read_pyvenv_home w.cfg) with _ | _
          · rfl
          · exact absurd h2 ((pyTruthy_iff _).mp h)
        simp [this]
      · simp [h2]
    rcases hc : w.callRc with e | rc
    · simp [is_valid_venv_python, h1, hcond, hc]
    · refine ⟨by simp [is_valid_venv_python, h1, hcond, hc], ?_⟩
      simp [is_valid_venv_python, h1, hcond, hc]

/-- Witness for C2 at concrete worlds: one with a dangling declared home
(interpreter present, no spawn, result false), and one with no declared home
where the probe exits 0 (result true). -/
theorem C2_witness :
    is_valid_venv_python
        ⟨true, ⟨true, .ok "home = /gone/python\n"⟩, fun _ => false, .ok 0⟩ = (false, [])
    ∧ (is_valid_venv_python
        ⟨true, ⟨false, .ok ""⟩, fun _ => true, .ok 0⟩).1 = true := by
  constructor
  · exact (C2_is_valid_venv_python_contract
      ⟨true, ⟨true, .ok "home = /gone/python\n"⟩, fun _ => false, .ok 0⟩).2.1
      (by decide) rfl
  · exact ((C2_is_valid_venv_python_contract
      ⟨true, ⟨false, .ok ""⟩, fun _ => true, .ok 0⟩).2.2 rfl (Or.inl (by decide))).2.mpr rfl

/-- C10: `read_pyvenv_home` and `is_valid_venv_python` are total Lean
functions of their worlds (no exception escapes); an I/O error reading the
configuration file yields `""`, a parse error (a `home` line with no `=`,
Python's `IndexError`) yields `""`, and an exception while probing the
interpreter yields `false`. -/
theorem C10_read_home_and_is_valid_total :
    ∀ (c : CfgWorld) (w : ValidWorld) (content line : String),
      (c.readContent = .error () → read_pyvenv_home c = "")
      ∧ (c.readContent = .ok content → firstHomeLine content = some line →
          containsChar line '=' = false → read_pyvenv_home c = "")
      ∧ (w.callRc = .error () → (is_valid_venv_python w).1 = false) := by
  intro c w content line
  refine ⟨fun h => ?_, fun h1 h2 h3 => ?_, fun h => ?_⟩
  · simp [read_pyvenv_home, h]
  · by_cases hce : c.cfgExists <;> simp [read_pyvenv_home, hce, h1, h2, h3]
  · by_cases hex : w.exeExists
    · by_cases hcond : (pyTruthy (read_pyvenv_home w.cfg)
          && !w.homeEx (read_pyvenv_home w.cfg)) = true
      · simp [is_valid_venv_python, hex, hcond]
      · simp only [Bool.not_eq_true] at hcond
        simp [is_valid_venv_python, hex, hcond, h]
    · simp [is_valid_venv_python, hex]

/-- Witness for C10: a failing read yields `""`, a `home` line with no `=`
yields `""`, and a raising probe yields `false`, at concrete worlds. -/
theorem C10_witness :
    read_pyvenv_home ⟨true, .error ()⟩ = ""
    ∧ read_pyvenv_home ⟨true, .ok "home\n"⟩ = ""
    ∧ (is_valid_venv_python ⟨true, ⟨false, .ok ""⟩, fun _ => true, .error ()⟩).1 = false := by
  refine ⟨?_, ?_, ?_⟩
  · exact (C10_read_home_and_is_valid_total ⟨true, .error ()⟩
      ⟨true, ⟨false, .ok ""⟩, fun _ => true, .error ()⟩ "" "").1 rfl
  · exact (C10_read_home_and_is_valid_total ⟨true, .ok "home\n"⟩
      ⟨true, ⟨false, .ok ""⟩, fun _ => true, .error ()⟩ "home\n" "home").2.1 rfl
      (by decide) (by decide)
  · exact (C10_read_home_and_is_valid_total ⟨true, .error ()⟩
      ⟨true, ⟨false, .ok ""⟩, fun _ => true, .error ()⟩ "" "").2.2 rfl

theorem findDest_eq (ex : FsPath → Bool) (d : FsPath) :
    ∀ (fuel k idx : Nat), k < fuel →
      (∀ j, j < k → ex (backupCandidate d (idx + j)) = true) →
      ex (backupCandidate d (idx + k)) = false →
      findDest ex d fuel idx = backupCandidate d (idx + k) := by
  intro fuel
  induction fuel with
  | zero => intro k idx hk; omega
  | succ n ih =>
    intro k idx hk hall hfree
    cases k with
    | zero =>
      simp only [Nat.add_zero] at hfree
      simp [findDest, hfree]
    | succ m =>
      have h0 : ex (backupCandidate d idx) = true := by
        have := hall 0 (Nat.succ_pos m)
        simpa using this
      have hrec := ih m (idx + 1) (by omega)
        (fun j hj => by
          have := hall (j + 1) (by omega)
          have harith : idx + (j + 1) = idx + 1 + j := by omega
          rwa [harith] at this)
        (by
          have harith : idx + (m + 1) = idx + 1 + m := by omega
          rwa [harith] at hfree)
      have harith : idx + 1 + m = idx + (m + 1) := by omega
      rw [harith] at hrec
      simp [findDest, h0, hrec]

/-- C6: with `N` prior backups of the same source name present (candidates 1
through `N` exist, candidate `N+1` is free, the search bound suffices),
`_backup_dir` picks destination `<name>.broken_backup` with a numeric
`_<n>` suffix on collision — concretely the `(N+1)`-th candidate — which does
not exist beforehand, so no prior backup is ever overwritten; a failure of
the move is logged and the function still returns to its caller. -/
theorem C6_backup_dir_contract :
    ∀ (ex : FsPath → Bool) (moveOk : Bool) (d : FsPath) (N fuel : Nat),
      N < fuel →
      (∀ i, 1 ≤ i → i ≤ N → ex (backupCandidate d i) = true) →
      ex (backupCandidate d (N + 1)) = false →
      findDest ex d fuel 1 = backupCandidate d (N + 1)
      ∧ ex (findDest ex d fuel 1) = false
      ∧ (Project._backup_dir ex moveOk fuel d).2.1 = moveOk
      ∧ (moveOk = true →
          (Project._backup_dir ex moveOk fuel d).1
            = [.move d (backupCandidate d (N + 1)),
               .log ("Backed up broken venv to: "
                 ++ showPath (backupCandidate d (N + 1)))])
      ∧ (moveOk = false →
          (Project._backup_dir ex moveOk fuel d).1
            = [.log ("Failed to backup broken venv (" ++ showPath d ++ ")")]) := by
  intro ex moveOk d N fuel hfuel hprior hfree
  have hd : findDest ex d fuel 1 = backupCandidate d (N + 1) := by
    have := findDest_eq ex d fuel N 1 hfuel
      (fun j hj => by
        have := hprior (1 + j) (by omega) (by omega)
        rwa [show (1 + j : Nat) = 1 + j from rfl] at this)
      (by rwa [show (1 + N : Nat) = N + 1 by omega])
    rwa [show (1 + N : Nat) = N + 1 by omega] at this
  refine ⟨hd, by rw [hd]; exact hfree, ?_, ?_, ?_⟩
  · cases moveOk <;> simp [Project._backup_dir]
  · intro hm; subst hm; simp [Project._backup_dir, hd]
  · intro hm; subst hm; simp [Project._backup_dir]

/-- Witness for C6: source directory `proj/venv` with exactly one prior
backup (`venv.broken_backup` exists, `venv.broken_backup_2` free): the move
goes to `venv.broken_backup_2`; and with the move failing, only the failure
log is produced. -/
theorem C6_witness :
    (Project._backup_dir (fun p => p == ["proj", "venv.broken_backup"]) true 3
        ["proj", "venv"]).1
      = [.move ["proj", "venv"] ["proj", "venv.broken_backup_2"],
         .log ("Backed up broken venv to: " ++ showPath ["proj", "venv.broken_backup_2"])]
    ∧ (Project._backup_dir (fun p => p == ["proj", "venv.broken_backup"]) false 3
        ["proj", "venv"]).1
      = [.log ("Failed to backup broken venv (" ++ showPath ["proj", "venv"] ++ ")")] := by
  constructor
  · have h := C6_backup_dir_contract (fun p => p == ["proj", "venv.broken_backup"]) true
      ["proj", "venv"] 1 3 (by omega)
      (fun i h1 h2 => by
        have hi : i = 1 := by omega
        subst hi; decide)
      (by decide)
    have := h.2.2.2.1 rfl
    simpa [backupCandidate] using this
  · have h := C6_backup_dir_contract (fun p => p == ["proj", "venv.broken_backup"]) false
      ["proj", "venv"] 1 3 (by omega)
      (fun i h1 h2 => by
        have hi : i = 1 := by omega
        subst hi; decide)
      (by decide)
    exact h.2.2.2.2 rfl

/-- C3 (amended): for every project whose directory contains an existing root
environment named `.venv` whose interpreter passes `is_valid_venv_python`,
`ensure_venv` with `force_rebuild = false` adopts that interpreter path,
reports success, and its whole trace is one validity check plus one log line:
zero environment-creation subprocess invocations, no backup, no other
mutation than the path assignment. -/
theorem C3_ensure_adopts_existing_root_dotvenv :
    ∀ (w : EnsureWorld) (st : ProjSt),
      w.ex (st.path ++ [".venv"] ++ pyRel) = true →
      w.valid (st.path ++ [".venv"] ++ pyRel) = true →
      Project.ensure_venv w st false
        = (true, { st with venv_python := some (st.path ++ [".venv"] ++ pyRel) },
           [.validCheck (st.path ++ [".venv"] ++ pyRel),
            .log ("Using existing venv: " ++ showPath (st.path ++ [".venv"] ++ pyRel))])
      ∧ (Project.ensure_venv w st false).2.2.countP isVenvCreate = 0 := by
  intro w st h1 h2
  have h1' : w.ex (st.path ++ ".venv" :: pyRel) = true := by
    simpa [List.append_assoc] using h1
  have h2' : w.valid (st.path ++ ".venv" :: pyRel) = true := by
    simpa [List.append_assoc] using h2
  have heq : Project.ensure_venv w st false
      = (true, { st with venv_python := some (st.path ++ [".venv"] ++ pyRel) },
         [.validCheck (st.path ++ [".venv"] ++ pyRel),
          .log ("Using existing venv: " ++ showPath (st.path ++ [".venv"] ++ pyRel))]) := by
    simp [Project.ensure_venv, h1', h2']
  refine ⟨heq, ?_⟩
  rw [heq]
  simp [isVenvCreate]

/-- Witness for C3 at a concrete world: a project with a valid `.venv`. -/
theorem C3_witness :
    Project.ensure_venv
        ⟨fun p => p == ["p", ".venv", "bin", "python"], fun _ => true,
         fun _ => "", true, 4, 0⟩
        ⟨["p"], "app.py", "", "", none, true, false⟩ false
      = (true, ⟨["p"], "app.py", "", "", some ["p", ".venv", "bin", "python"], true, false⟩,
         [.validCheck ["p", ".venv", "bin", "python"],
          .log ("Using existing venv: " ++ showPath ["p", ".venv", "bin", "python"])]) := by
  exact (C3_ensure_adopts_existing_root_dotvenv
    ⟨fun p => p == ["p", ".venv", "bin", "python"], fun _ => true, fun _ => "", true, 4, 0⟩
    ⟨["p"], "app.py", "", "", none, true, false⟩ (by decide) rfl).1

/-- Counterexample to C3 as stated: the claim quantifies over *any* of the
conventional alias directory names, but the source's `ensure_venv` only
adopts a root environment named `.venv`.  Here the project's root environment
is named `venv`, is detected by discovery and passes validation, yet
`ensure_venv` still performs one environment-creation subprocess invocation
and ends with `venv_python` pointing at the fresh `.venv`, not at the
existing interpreter. -/
theorem C3_counterexample :
    Project._prefer_root_venv c3ex ["proj"] = some ["proj", "venv", "bin", "python"]
    ∧ c3w.valid ["proj", "venv", "bin", "python"] = true
    ∧ c3st.venv_python = some ["proj", "venv", "bin", "python"]
    ∧ (Project.ensure_venv c3w c3st false).2.2.countP isVenvCreate = 1
    ∧ (Project.ensure_venv c3w c3st false).2.1.venv_python
        = some ["proj", ".venv", "bin", "python"] := by
  refine ⟨by decide, by decide, by decide, ?_, ?_⟩ <;> decide

/-- C9: `_pip` first checks that the stored interpreter path is non-empty and
exists on disk; if either check fails it returns exit code 1 after exactly
one log line and spawns nothing; and any pip spawn it does perform goes
through an interpreter path that is non-empty and exists. -/
theorem C9_pip_guard :
    ∀ (ex : FsPath → Bool) (vp : Option FsPath) (args : List String) (rc : Int),
      (vp = none →
        Project._pip ex vp args rc = (1, [.log "Internal error: venv python missing"]))
      ∧ (∀ p, vp = some p → ex p = false →
          Project._pip ex vp args rc = (1, [.log "Internal error: venv python missing"]))
      ∧ (∀ e, e ∈ (Project._pip ex vp args rc).2 → isPipSpawn e = true →
          ∃ p, vp = some p ∧ ex p = true) := by
  intro ex vp args rc
  refine ⟨fun h => by simp [Project._pip, h], fun p h1 h2 => by simp [Project._pip, h1, h2], ?_⟩
  intro e he hspawn
  cases vp with
  | none =>
    simp [Project._pip] at he
    subst he
    simp [isPipSpawn] at hspawn
  | some p =>
    by_cases hp : ex p
    · exact ⟨p, rfl, hp⟩
    · simp [Project._pip, hp] at he
      subst he
      simp [isPipSpawn] at hspawn

/-- Witness for C9: with an empty stored path, and with a stored path whose
file is missing, `_pip` returns 1 with the single diagnostic log line. -/
theorem C9_witness :
    Project._pip (fun _ => true) none ["install", "-r", "r.txt"] 0
      = (1, [.log "Internal error: venv python missing"])
    ∧ Project._pip (fun _ => false) (some ["p", ".venv", "bin", "python"])
        ["install", "-r", "r.txt"] 0
      = (1, [.log "Internal error: venv python missing"]) := by
  constructor
  · exact (C9_pip_guard (fun _ => true) none ["install", "-r", "r.txt"] 0).1 rfl
  · exact (C9_pip_guard (fun _ => false) (some ["p", ".venv", "bin", "python"])
      ["install", "-r", "r.txt"] 0).2.1 ["p", ".venv", "bin", "python"] rfl rfl

theorem isInstallSpawn_install (r : String) :
    isInstallSpawn (.spawnPip ["install", "-r", r]) = true := by
  simp [isInstallSpawn]

theorem isInstallSpawn_upgrade :
    isInstallSpawn (.spawnPip ["install", "--upgrade", "pip", "setuptools", "wheel"]) = false := by
  decide

theorem isUpgradeSpawn_install (r : String) :
    isUpgradeSpawn (.spawnPip ["install", "-r", r]) = false := by
  simp only [isUpgradeSpawn, decide_eq_false_iff_not]
  intro h
  injection h with h1 h2
  injection h2 with h3 h4
  exact absurd h3 (by decide)

theorem isUpgradeSpawn_upgrade :
    isUpgradeSpawn (.spawnPip ["install", "--upgrade", "pip", "setuptools", "wheel"]) = true := by
  decide

theorem pip_count_install_le (ex : FsPath → Bool) (vp : Option FsPath) (r : String) (rc : Int) :
    (Project._pip ex vp ["install", "-r", r] rc).2.countP isInstallSpawn ≤ 1 := by
  cases vp with
  | none => simp [Project._pip, isInstallSpawn]
  | some p =>
    by_cases hp : ex p <;>
      simp [Project._pip, hp, isInstallSpawn, List.countP_cons]

theorem pip_count_upgrade_of_install (ex : FsPath → Bool) (vp : Option FsPath) (r : String) (rc : Int) :
    (Project._pip ex vp ["install", "-r", r] rc).2.countP isUpgradeSpawn = 0 := by
  cases vp with
  | none => simp [Project._pip, isUpgradeSpawn]
  | some p =>
    by_cases hp : ex p <;>
      simp [Project._pip, hp, List.countP_cons, isUpgradeSpawn_install,
        show ∀ s, isUpgradeSpawn (.log s) = false from fun _ => rfl]

theorem pip_count_upgrade_le (ex : FsPath → Bool) (vp : Option FsPath) (rc : Int) :
    (Project._pip ex vp ["install", "--upgrade", "pip", "setuptools", "wheel"] rc).2.countP
      isUpgradeSpawn ≤ 1 := by
  cases vp with
  | none => simp [Project._pip, isUpgradeSpawn]
  | some p =>
    by_cases hp : ex p <;>
      simp [Project._pip, hp, List.countP_cons, isUpgradeSpawn]

theorem pip_count_install_of_upgrade (ex : FsPath → Bool) (vp : Option FsPath) (rc : Int) :
    (Project._pip ex vp ["install", "--upgrade", "pip", "setuptools", "wheel"] rc).2.countP
      isInstallSpawn = 0 := by
  cases vp with
  | none => simp [Project._pip, isInstallSpawn]
  | some p =>
    by_cases hp : ex p <;>
      simp [Project._pip, hp, List.countP_cons, isInstallSpawn_upgrade,
        show ∀ s, isInstallSpawn (.log s) = false from fun _ => rfl]


theorem isInstallSpawn_log (s : String) : isInstallSpawn (.log s) = false := rfl

theorem isUpgradeSpawn_log (s : String) : isUpgradeSpawn (.log s) = false := rfl

theorem isInstallSpawn_marker : isInstallSpawn .writeMarker = false := rfl

theorem isUpgradeSpawn_marker : isUpgradeSpawn .writeMarker = false := rfl

theorem isInstallSpawn_ensure : isInstallSpawn .ensureCall = false := rfl

theorem isUpgradeSpawn_ensure : isUpgradeSpawn .ensureCall = false := rfl

/-- C4: one call to `install_requirements` performs at most 2 package-install
invocations and at most 1 upgrade invocation before reporting a definitive
result; when the first install fails and the upgrade also fails, it reports
failure with no retry of the install; when the upgrade succeeds, the install
is retried exactly once and that retry's exit code decides the result; when
the first install succeeds there is no upgrade at all. -/
theorem C4_install_requirements_bounded_retry :
    ∀ (w : InstallWorld) (st : ProjSt),
      ((Project.install_requirements w st).2.countP isInstallSpawn ≤ 2
        ∧ (Project.install_requirements w st).2.countP isUpgradeSpawn ≤ 1)
      ∧ (∀ p, pyTruthy st.requirements = true → w.reqExists = true →
          (w.markerExists && !st.install_on_run) = false →
          st.venv_python = some p → w.valid p = true → w.ex p = true →
          (¬w.rc1 = 0 → ¬w.upRc = 0 →
            (Project.install_requirements w st).1 = false
            ∧ (Project.install_requirements w st).2.countP isInstallSpawn = 1
            ∧ (Project.install_requirements w st).2.countP isUpgradeSpawn = 1)
          ∧ (¬w.rc1 = 0 → w.upRc = 0 →
            (Project.install_requirements w st).2.countP isInstallSpawn = 2
            ∧ (Project.install_requirements w st).2.countP isUpgradeSpawn = 1
            ∧ ((Project.install_requirements w st).1 = true ↔ w.rc2 = 0))
          ∧ (w.rc1 = 0 →
            (Project.install_requirements w st).1 = true
            ∧ (Project.install_requirements w st).2.countP isInstallSpawn = 1
            ∧ (Project.install_requirements w st).2.countP isUpgradeSpawn = 0)) := by
  intro w st
  constructor
  · by_cases hreq : pyTruthy st.requirements
    case neg => simp [Project.install_requirements, hreq]
    by_cases hre : w.reqExists
    case neg => simp [Project.install_requirements, hreq, hre]
    by_cases hmk : (w.markerExists && !st.install_on_run) = true
    · simp [Project.install_requirements, hreq, hre, hmk, isInstallSpawn, isUpgradeSpawn]
    · simp only [Bool.not_eq_true] at hmk
      cases hne : (match st.venv_python with | none => true | some q => !w.valid q) with
      | true =>
        by_cases hok : w.ensureOk
        · have hi1 := pip_count_install_le w.ex w.ensureVp
            (showPath (st.path ++ [st.requirements])) w.rc1
          have hi2 := pip_count_install_le w.ex w.ensureVp
            (showPath (st.path ++ [st.requirements])) w.rc2
          have hiu := pip_count_install_of_upgrade w.ex w.ensureVp w.upRc
          have hu1 := pip_count_upgrade_of_install w.ex w.ensureVp
            (showPath (st.path ++ [st.requirements])) w.rc1
          have hu2 := pip_count_upgrade_of_install w.ex w.ensureVp
            (showPath (st.path ++ [st.requirements])) w.rc2
          have huu := pip_count_upgrade_le w.ex w.ensureVp w.upRc
          simp only [Project.install_requirements, hreq, hre, hmk, hne, hok]
          constructor <;>
          · split_ifs <;>
              simp [List.countP_append, List.countP_cons, isInstallSpawn_log,
                isUpgradeSpawn_log, isInstallSpawn_marker, isUpgradeSpawn_marker,
                isInstallSpawn_ensure, isUpgradeSpawn_ensure] <;>
              omega
        · simp [Project.install_requirements, hreq, hre, hmk, hne, hok, isInstallSpawn,
            isUpgradeSpawn]
      | false =>
        have hi1 := pip_count_install_le w.ex st.venv_python
          (showPath (st.path ++ [st.requirements])) w.rc1
        have hi2 := pip_count_install_le w.ex st.venv_python
          (showPath (st.path ++ [st.requirements])) w.rc2
        have hiu := pip_count_install_of_upgrade w.ex st.venv_python w.upRc
        have hu1 := pip_count_upgrade_of_install w.ex st.venv_python
          (showPath (st.path ++ [st.requirements])) w.rc1
        have hu2 := pip_count_upgrade_of_install w.ex st.venv_python
          (showPath (st.path ++ [st.requirements])) w.rc2
        have huu := pip_count_upgrade_le w.ex st.venv_python w.upRc
        simp only [Project.install_requirements, hreq, hre, hmk, hne]
        constructor <;>
        · split_ifs <;>
            simp [List.countP_append, List.countP_cons, isInstallSpawn_log,
              isUpgradeSpawn_log, isInstallSpawn_marker, isUpgradeSpawn_marker,
              isInstallSpawn_ensure, isUpgradeSpawn_ensure] <;>
            omega
  · intro p hreq hre hmk hvp hvalid hexp
    have hne : (match st.venv_python with | none => true | some q => !w.valid q) = false := by
      rw [hvp]; simp [hvalid]
    have hpip : ∀ args rc,
        Project._pip w.ex st.venv_python args rc
          = (rc, [.log ("$ " ++ String.intercalate " " ([showPath p, "-m", "pip"] ++ args)),
                  .spawnPip args]) := by
      intro args rc
      rw [hvp]
      simp [Project._pip, hexp]
    refine ⟨fun h1 h2 => ?_, fun h1 h2 => ?_, fun h1 => ?_⟩
    · simp [Project.install_requirements, hreq, hre, hmk, hne, hpip, h1, h2,
        List.countP_append, List.countP_cons, isInstallSpawn_install, isUpgradeSpawn_install,
        isInstallSpawn_upgrade, isUpgradeSpawn_upgrade, isInstallSpawn_log, isUpgradeSpawn_log,
        isInstallSpawn_marker, isUpgradeSpawn_marker, isInstallSpawn_ensure, isUpgradeSpawn_ensure]
    · by_cases h3 : w.rc2 = 0 <;>
        simp [Project.install_requirements, hreq, hre, hmk, hne, hpip, h1, h2, h3,
          List.countP_append, List.countP_cons, isInstallSpawn_install,
          isUpgradeSpawn_install, isInstallSpawn_upgrade, isUpgradeSpawn_upgrade,
          isInstallSpawn_log, isUpgradeSpawn_log, isInstallSpawn_marker, isUpgradeSpawn_marker,
          isInstallSpawn_ensure, isUpgradeSpawn_ensure]
    · simp [Project.install_requirements, hreq, hre, hmk, hne, hpip, h1,
        List.countP_append, List.countP_cons, isInstallSpawn_install, isUpgradeSpawn_install,
        isInstallSpawn_log, isUpgradeSpawn_log, isInstallSpawn_marker, isUpgradeSpawn_marker,
        isInstallSpawn_ensure, isUpgradeSpawn_ensure]

/-- Witness for C4 at a concrete world: the first install exits 2, the
upgrade exits 3, so the call reports failure after exactly one install
invocation and one upgrade invocation. -/
theorem C4_witness :
    (Project.install_requirements
        ⟨fun _ => true, true, false, fun _ => true, true, none, 2, 3, 0⟩
        ⟨["p"], "app.py", "", "requirements.txt",
         some ["p", ".venv", "bin", "python"], true, false⟩).1 = false
    ∧ (Project.install_requirements
        ⟨fun _ => true, true, false, fun _ => true, true, none, 2, 3, 0⟩
        ⟨["p"], "app.py", "", "requirements.txt",
         some ["p", ".venv", "bin", "python"], true, false⟩).2.countP isInstallSpawn = 1
    ∧ (Project.install_requirements
        ⟨fun _ => true, true, false, fun _ => true, true, none, 2, 3, 0⟩
        ⟨["p"], "app.py", "", "requirements.txt",
         some ["p", ".venv", "bin", "python"], true, false⟩).2.countP isUpgradeSpawn = 1 := by
  exact ((C4_install_requirements_bounded_retry
      ⟨fun _ => true, true, false, fun _ => true, true, none, 2, 3, 0⟩
      ⟨["p"], "app.py", "", "requirements.txt",
       some ["p", ".venv", "bin", "python"], true, false⟩).2
    ["p", ".venv", "bin", "python"] (by decide) rfl (by decide) rfl rfl rfl).1
    (by decide) (by decide)

/-- C5: `Project.run` sets exactly one terminal status per invocation, with
its checks in source order: `Need entrypoint` before any environment work;
`Venv error` when ensure fails; `Missing entrypoint` after ensure but before
dependency install; `Install failed` when install fails; `Launch failed`
when the spawn raises; on success the child's handle (pid) is recorded and
the status embeds the pid. -/
theorem C5_run_status_terminal_order :
    ∀ (w : RunWorld) (st : ProjSt),
      (Project.run w st).2.countP isSetStatus = 1
      ∧ (pyTruthy st.entrypoint = false →
          Project.run w st
            = (none, [.log "No entrypoint detected. Right-click → Edit Entrypoint/Args.",
                      .setStatus "Need entrypoint"]))
      ∧ (pyTruthy st.entrypoint = true → w.ensureOk = false →
          Project.run w st = (none, [.ensureCall, .setStatus "Venv error"]))
      ∧ (pyTruthy st.entrypoint = true → w.ensureOk = true →
          w.ex (st.path ++ [st.entrypoint]) = false →
          Project.run w st
            = (none, [.ensureCall,
                      .log ("Entrypoint \x27" ++ st.entrypoint ++ "\x27 not found."),
                      .setStatus "Missing entrypoint"]))
      ∧ (pyTruthy st.entrypoint = true → w.ensureOk = true →
          w.ex (st.path ++ [st.entrypoint]) = true → w.installOk = false →
          Project.run w st = (none, [.ensureCall, .installCall, .setStatus "Install failed"]))
      ∧ (∀ e, pyTruthy st.entrypoint = true → w.ensureOk = true →
          w.ex (st.path ++ [st.entrypoint]) = true → w.installOk = true →
          w.spawnRes = .error e →
          Project.run w st
            = (none, [.ensureCall, .installCall, .spawnChild, .setStatus "Launch failed",
                      .log ("Launch failed: " ++ e)]))
      ∧ (∀ pid, pyTruthy st.entrypoint = true → w.ensureOk = true →
          w.ex (st.path ++ [st.entrypoint]) = true → w.installOk = true →
          w.spawnRes = .ok pid →
          Project.run w st
            = (some pid, [.ensureCall, .installCall, .spawnChild,
                .setStatus ("Running (PID " ++ toString pid ++ ")"),
                .log ("Launched with " ++ pathBaseName (pythonExecOf w) ++ " "
                  ++ st.entrypoint)])) := by
  intro w st
  constructor
  · by_cases h1 : pyTruthy st.entrypoint
    · by_cases h2 : w.ensureOk
      · by_cases h3 : w.ex (st.path ++ [st.entrypoint])
        · by_cases h4 : w.installOk
          · rcases hs : w.spawnRes with e | pid <;>
              simp [Project.run, h1, h2, h3, h4, hs, isSetStatus, List.countP_cons]
          · simp [Project.run, h1, h2, h3, h4, isSetStatus, List.countP_cons]
        · simp [Project.run, h1, h2, h3, isSetStatus, List.countP_cons]
      · simp [Project.run, h1, h2, isSetStatus, List.countP_cons]
    · simp [Project.run, h1, isSetStatus, List.countP_cons]
  refine ⟨fun h1 => ?_, fun h1 h2 => ?_, fun h1 h2 h3 => ?_, fun h1 h2 h3 h4 => ?_,
    fun e h1 h2 h3 h4 hs => ?_, fun pid h1 h2 h3 h4 hs => ?_⟩
  · simp [Project.run, h1]
  · simp [Project.run, h1, h2]
  · simp [Project.run, h1, h2, h3]
  · simp [Project.run, h1, h2, h3, h4]
  · simp [Project.run, h1, h2, h3, h4, hs]
  · simp [Project.run, h1, h2, h3, h4, hs]

/-- Witness for C5: each terminal status reached at a concrete world — no
entrypoint, ensure failure, missing entry file, install failure, spawn
failure, and a successful launch recording pid 42. -/
theorem C5_witness :
    (Project.run ⟨true, none, fun _ => true, true, "python3", .ok 42⟩
        ⟨["p"], "", "", "", none, true, false⟩).2
      = [.log "No entrypoint detected. Right-click → Edit Entrypoint/Args.",
         .setStatus "Need entrypoint"]
    ∧ (Project.run ⟨false, none, fun _ => true, true, "python3", .ok 42⟩
        ⟨["p"], "app.py", "", "", none, true, false⟩).2
      = [.ensureCall, .setStatus "Venv error"]
    ∧ (Project.run ⟨true, none, fun _ => false, true, "python3", .ok 42⟩
        ⟨["p"], "app.py", "", "", none, true, false⟩).2
      = [.ensureCall, .log ("Entrypoint \x27" ++ "app.py" ++ "\x27 not found."),
         .setStatus "Missing entrypoint"]
    ∧ (Project.run ⟨true, none, fun _ => true, false, "python3", .ok 42⟩
        ⟨["p"], "app.py", "", "", none, true, false⟩).2
      = [.ensureCall, .installCall, .setStatus "Install failed"]
    ∧ (Project.run ⟨true, none, fun _ => true, true, "python3", .error "boom"⟩
        ⟨["p"], "app.py", "", "", none, true, false⟩).2
      = [.ensureCall, .installCall, .spawnChild, .setStatus "Launch failed",
         .log ("Launch failed: " ++ "boom")]
    ∧ Project.run ⟨true, none, fun _ => true, true, "python3", .ok 42⟩
        ⟨["p"], "app.py", "", "", none, true, false⟩
      = (some 42, [.ensureCall, .installCall, .spawnChild,
          .setStatus ("Running (PID " ++ toString 42 ++ ")"),
          .log ("Launched with "
            ++ pathBaseName (pythonExecOf ⟨true, none, fun _ => true, true, "python3", .ok 42⟩)
            ++ " " ++ "app.py")]) := by
  refine ⟨?_, ?_, ?_, ?_, ?_, ?_⟩
  · exact congrArg Prod.snd ((C5_run_status_terminal_order
      ⟨true, none, fun _ => true, true, "python3", .ok 42⟩
      ⟨["p"], "", "", "", none, true, false⟩).2.1 (by decide))
  · exact congrArg Prod.snd ((C5_run_status_terminal_order
      ⟨false, none, fun _ => true, true, "python3", .ok 42⟩
      ⟨["p"], "app.py", "", "", none, true, false⟩).2.2.1 (by decide) rfl)
  · exact congrArg Prod.snd ((C5_run_status_terminal_order
      ⟨true, none, fun _ => false, true, "python3", .ok 42⟩
      ⟨["p"], "app.py", "", "", none, true, false⟩).2.2.2.1 (by decide) rfl rfl)
  · exact congrArg Prod.snd ((C5_run_status_terminal_order
      ⟨true, none, fun _ => true, false, "python3", .ok 42⟩
      ⟨["p"], "app.py", "", "", none, true, false⟩).2.2.2.2.1 (by decide) rfl rfl rfl)
  · exact congrArg Prod.snd ((C5_run_status_terminal_order
      ⟨true, none, fun _ => true, true, "python3", .error "boom"⟩
      ⟨["p"], "app.py", "", "", none, true, false⟩).2.2.2.2.2.1 "boom"
      (by decide) rfl rfl rfl rfl)
  · exact (C5_run_status_terminal_order
      ⟨true, none, fun _ => true, true, "python3", .ok 42⟩
      ⟨["p"], "app.py", "", "", none, true, false⟩).2.2.2.2.2.2 42
      (by decide) rfl rfl rfl rfl

/-- C7: `Project.stop` with no live handle (no process object, or one whose
`poll()` shows it exited) sets status `Idle` and performs no subprocess
operation; with a live handle it terminates, waits up to 5 seconds and sets
`Stopped`; if the wait raises (timeout) it kills and sets `Killed`; and if
even the kill raises, the failure is only logged — nothing propagates. -/
theorem C7_stop_contract :
    ∀ (b r : Bool) (t : TermOutcome) (k : Except String Unit) (e e2 : String),
      Project.stop ⟨false, r, t, k⟩ = [.setStatus "Idle"]
      ∧ Project.stop ⟨b, false, t, k⟩ = [.setStatus "Idle"]
      ∧ Project.stop ⟨true, true, .ok, k⟩
          = [.terminate, .waitProc 5, .setStatus "Stopped", .log "Stopped."]
      ∧ Project.stop ⟨true, true, .raisedAtWait e, .ok ()⟩
          = [.terminate, .waitProc 5, .kill, .setStatus "Killed", .log "Killed."]
      ∧ Project.stop ⟨true, true, .raisedAtTerminate e, .ok ()⟩
          = [.terminate, .kill, .setStatus "Killed", .log "Killed."]
      ∧ Project.stop ⟨true, true, .raisedAtWait e, .error e2⟩
          = [.terminate, .waitProc 5, .kill, .log ("Failed to stop: " ++ e2)] := by
  intro b r t k e e2
  refine ⟨rfl, ?_, rfl, rfl, rfl, rfl⟩
  cases b <;> rfl

/-- C8 (amended): the scan produces exactly one project per immediate
subdirectory of the root — hidden directories included, since the source
filters only on `p.is_dir()` — and the project list is sorted by name. -/
theorem C8_scan_one_per_subdir_sorted :
    ∀ entries : List FsEntry,
      (scanProjects entries).Sorted (fun a b => a ≤ b)
      ∧ (∀ n, n ∈ scanProjects entries ↔ ∃ e, e ∈ entries ∧ e.isDir = true ∧ e.name = n)
      ∧ (scanProjects entries).length = (entries.filter (fun e => e.isDir)).length := by
  intro entries
  refine ⟨List.sorted_insertionSort _ _, fun n => ?_, ?_⟩
  · rw [scanProjects, List.mem_insertionSort]
    simp only [List.mem_map, List.mem_filter, and_assoc]
  · rw [scanProjects, List.length_insertionSort, List.length_map]

/-- Counterexample to C8 as stated: the claim (and spec) say one project per
*non-hidden* subdirectory, but the source's `_scan` keeps every
subdirectory: a root containing only the hidden directory `.git` yields one
project, where the spec's reading yields none. -/
theorem C8_counterexample :
    scanProjects [⟨".git", true⟩] = [".git"]
    ∧ pyStartsWith ".git" "." = true
    ∧ scanProjectsSpec [⟨".git", true⟩] = [] := by
  refine ⟨rfl, by decide, rfl⟩
